import Mathlib

/-!
Shallow embedding of the Recommendations service core
(src/service/models.py and src/service/routes.py):
the entity validator, the dynamic query filter builder,
the optimistic update guard, and the delete/update routes.
-/

namespace RecService

/-- A Python runtime value as it can appear in a JSON-derived payload.
In Python, `bool` is a subclass of `int`, which matters for
`isinstance(value, int)` checks in the setters. -/
inductive PyVal where
  | int (n : Int)
  | bool (b : Bool)
  | str (s : String)
  | none
deriving DecidableEq

/-- Python `isinstance(value, int)`: true for `int` and for `bool`
(Python's `bool` is a subclass of `int`). -/
def isinstance_int : PyVal → Bool
  | .int _ => true
  | .bool _ => true
  | _ => false

/-- The integer value a Python int-or-bool carries (`True == 1`, `False == 0`);
this is also the value a `db.Integer` column stores. Other shapes never
reach arithmetic because the setters check `isinstance` first. -/
def pyToInt : PyVal → Int
  | .int n => n
  | .bool b => if b then 1 else 0
  | _ => 0

/-- models.py 58-65: the `product_id` setter. -/
def product_id_setter (value : PyVal) : Except String Int :=
  if ¬ isinstance_int value then
    Except.error "Invalid product_id: must be an integer"
  else if pyToInt value ≤ 0 then
    Except.error "Invalid product_id: must be a positive number"
  else
    Except.ok (pyToInt value)

/-- models.py 72-81: the `recommended_id` setter. -/
def recommended_id_setter (value : PyVal) : Except String Int :=
  if ¬ isinstance_int value then
    Except.error "Invalid recommended_id: must be an integer"
  else if pyToInt value ≤ 0 then
    Except.error "Invalid recommended_id: must be a positive number"
  else
    Except.ok (pyToInt value)

/-- models.py 88-95: the `recommendation_type` setter
(`value not in ["cross-sell", "up-sell", "accessory"]` rejects any
non-member, in particular any non-string).  The quotation marks inside
the source's message are elided here. -/
def recommendation_type_setter (value : PyVal) : Except String String :=
  match value with
  | .str s =>
    if s = "cross-sell" ∨ s = "up-sell" ∨ s = "accessory" then Except.ok s
    else Except.error "Invalid recommendation_type: must be one of [cross-sell, up-sell, accessory]"
  | _ => Except.error "Invalid recommendation_type: must be one of [cross-sell, up-sell, accessory]"

/-- models.py 102-109: the `status` setter. -/
def status_setter (value : PyVal) : Except String String :=
  match value with
  | .str s =>
    if s = "active" ∨ s = "expired" ∨ s = "draft" then Except.ok s
    else Except.error "Invalid status: must be one of [active, expired, draft]"
  | _ => Except.error "Invalid status: must be one of [active, expired, draft]"

/-- The four validated business attributes of a `Recommendations` entity,
each `Option.none` until its setter has run (a fresh model instance has
unset column attributes). -/
structure RecFields where
  product_id : Option Int := Option.none
  recommended_id : Option Int := Option.none
  recommendation_type : Option String := Option.none
  status : Option String := Option.none
deriving DecidableEq

/-- A fresh `Recommendations()` instance: no business field set. -/
def rec0 : RecFields := {}

/-- A JSON payload: an association list from keys to Python values. -/
def Payload := List (String × PyVal)

/-- Python `data[k]`: `KeyError` becomes the `DataValidationError`
message of models.py 212-215. -/
def dictGet (data : Payload) (k : String) : Except String PyVal :=
  match data.find? (fun p => p.1 == k) with
  | Option.some p => Except.ok p.2
  | Option.none => Except.error ("Invalid Recommendations: missing " ++ k)

/-- models.py 203-221: `deserialize` assigns the four business fields in
source order (`product_id`, `recommended_id`, `recommendation_type`,
`status`); an exception aborts the remaining assignments but keeps the
ones already made, so the error carries the entity state at failure time. -/
def deserialize (self : RecFields) (data : Payload) :
    Except (String × RecFields) RecFields :=
  match dictGet data "product_id" with
  | Except.error e => Except.error (e, self)
  | Except.ok v =>
    match product_id_setter v with
    | Except.error e => Except.error (e, self)
    | Except.ok pid =>
      let s1 : RecFields := { self with product_id := Option.some pid }
      match dictGet data "recommended_id" with
      | Except.error e => Except.error (e, s1)
      | Except.ok v2 =>
        match recommended_id_setter v2 with
        | Except.error e => Except.error (e, s1)
        | Except.ok rid =>
          let s2 : RecFields := { s1 with recommended_id := Option.some rid }
          match dictGet data "recommendation_type" with
          | Except.error e => Except.error (e, s2)
          | Except.ok v3 =>
            match recommendation_type_setter v3 with
            | Except.error e => Except.error (e, s2)
            | Except.ok ty =>
              let s3 : RecFields := { s2 with recommendation_type := Option.some ty }
              match dictGet data "status" with
              | Except.error e => Except.error (e, s3)
              | Except.ok v4 =>
                match status_setter v4 with
                | Except.error e => Except.error (e, s3)
                | Except.ok st =>
                  Except.ok { s3 with status := Option.some st }

/-- Whether a field of the payload would pass its lookup and setter. -/
def fieldOkInt (data : Payload) (k : String)
    (setter : PyVal → Except String Int) : Bool :=
  match dictGet data k with
  | Except.ok v => match setter v with
    | Except.ok _ => true
    | Except.error _ => false
  | Except.error _ => false

/-- Whether a string-valued field of the payload would pass its lookup
and setter. -/
def fieldOkStr (data : Payload) (k : String)
    (setter : PyVal → Except String String) : Bool :=
  match dictGet data k with
  | Except.ok v => match setter v with
    | Except.ok _ => true
    | Except.error _ => false
  | Except.error _ => false

/-- A persisted `Recommendations` row (models.py 20-51): the validated
business fields plus the surrogate key, audit timestamps and counters. -/
structure Recommendations where
  id : Nat
  product_id : Int
  recommended_id : Int
  recommendation_type : String
  status : String
  created_at : Nat
  last_updated : Nat
  like : Int
  dislike : Int
deriving DecidableEq

/-- models.py 189-201: `serialize` turns an entity into a dictionary. -/
def serialize (r : Recommendations) : Payload :=
  [("id", PyVal.int r.id),
   ("product_id", PyVal.int r.product_id),
   ("recommended_id", PyVal.int r.recommended_id),
   ("recommendation_type", PyVal.str r.recommendation_type),
   ("status", PyVal.str r.status),
   ("last_updated", PyVal.int r.last_updated),
   ("created_at", PyVal.int r.created_at),
   ("like", PyVal.int r.like),
   ("dislike", PyVal.int r.dislike)]

/-- Hydrating a full row from deserialized business fields, an assigned
id and storage-set audit columns (models.py 30-51 column defaults). -/
def toEntity (s : RecFields) (i : Nat) (created updated : Nat) : Recommendations :=
  { id := i
    product_id := s.product_id.getD 0
    recommended_id := s.recommended_id.getD 0
    recommendation_type := s.recommendation_type.getD ""
    status := s.status.getD ""
    created_at := created
    last_updated := updated
    like := 0
    dislike := 0 }

/-- The filter dictionary accepted by `find_by_filters`
(models.py 259-289); a key is present iff its field is `some`. -/
structure Filters where
  product_id : Option Int := Option.none
  recommended_id : Option Int := Option.none
  recommendation_type : Option String := Option.none
  status : Option String := Option.none
  created_at_min : Option Nat := Option.none
  created_at_max : Option Nat := Option.none
  page : Option Int := Option.none
  limit : Option Int := Option.none
  sort_by : Option String := Option.none
  order : Option String := Option.none
deriving DecidableEq

/-- The empty filter dictionary. -/
def emptyFilters : Filters := {}

/-- models.py 291-304: `_apply_filters` chains one equality predicate
per present key, in source order. -/
def apply_filters (f : Filters) (rows : List Recommendations) : List Recommendations :=
  let rows := match f.product_id with
    | Option.some v => rows.filter (fun r => r.product_id == v)
    | Option.none => rows
  let rows := match f.recommended_id with
    | Option.some v => rows.filter (fun r => r.recommended_id == v)
    | Option.none => rows
  let rows := match f.recommendation_type with
    | Option.some v => rows.filter (fun r => r.recommendation_type == v)
    | Option.none => rows
  match f.status with
    | Option.some v => rows.filter (fun r => r.status == v)
    | Option.none => rows

/-- models.py 306-313: `_apply_date_range` keeps rows inside the
requested `created_at` window. -/
def apply_date_range (f : Filters) (rows : List Recommendations) : List Recommendations :=
  let rows := match f.created_at_min with
    | Option.some v => rows.filter (fun r => decide (v ≤ r.created_at))
    | Option.none => rows
  match f.created_at_max with
    | Option.some v => rows.filter (fun r => decide (r.created_at ≤ v))
    | Option.none => rows

/-- The sort key selected by `getattr(cls, sort_by)` for the four
allowed column names (models.py 320-325). -/
def sortKey (sb : String) (r : Recommendations) : Int :=
  if sb = "created_at" then (r.created_at : Int)
  else if sb = "product_id" then r.product_id
  else if sb = "recommended_id" then r.recommended_id
  else (r.last_updated : Int)

/-- The row ordering induced by `sort_by`/`order`: ascending on the key
for `order == "asc"`, descending otherwise. -/
def sortLE (sb ord : String) (a b : Recommendations) : Prop :=
  (if ord = "asc" then decide (sortKey sb a ≤ sortKey sb b)
   else decide (sortKey sb b ≤ sortKey sb a)) = true

instance (sb ord : String) : DecidableRel (sortLE sb ord) :=
  fun _ _ => instDecidableEqBool _ _

instance (sb ord : String) : IsTotal Recommendations (sortLE sb ord) := by
  constructor
  intro a b
  unfold sortLE
  by_cases h : ord = "asc" <;>
    simp [h] <;> exact Int.le_total _ _

instance (sb ord : String) : IsTrans Recommendations (sortLE sb ord) := by
  constructor
  intro a b c hab hbc
  unfold sortLE at *
  by_cases h : ord = "asc" <;> simp [h] at * <;> omega

/-- models.py 315-326: `_apply_sorting` orders by the requested column
when the column name is recognized, else leaves the order unchanged;
modelled deterministically by a stable insertion sort. -/
def apply_sorting (f : Filters) (rows : List Recommendations) : List Recommendations :=
  let sb := f.sort_by.getD "created_at"
  let ord := f.order.getD "desc"
  if sb = "created_at" ∨ sb = "product_id" ∨ sb = "recommended_id" ∨ sb = "last_updated" then
    List.insertionSort (sortLE sb ord) rows
  else rows

/-- models.py 328-334: `_apply_pagination` computes
`offset = (page-1)*limit` and returns `limit` rows from there. -/
def apply_pagination (f : Filters) (rows : List Recommendations) : List Recommendations :=
  let page := f.page.getD 1
  let lim := f.limit.getD 10
  let offset := (page - 1) * lim
  (rows.drop offset.toNat).take lim.toNat

/-- The query pipeline before pagination: equality filters, date range,
then sorting (models.py 283-286). -/
def filtered_sorted (f : Filters) (rows : List Recommendations) : List Recommendations :=
  apply_sorting f (apply_date_range f (apply_filters f rows))

/-- models.py 259-289: `find_by_filters` composes filters, date range,
sorting and pagination over the stored rows. -/
def find_by_filters (f : Filters) (rows : List Recommendations) : List Recommendations :=
  apply_pagination f (filtered_sorted f rows)

/-- models.py 233-237: `find` looks a row up by primary key. -/
def findDb (db : List Recommendations) (i : Nat) : Option Recommendations :=
  db.find? (fun r => r.id == i)

/-- The row written by a committed update: the in-memory field values,
with `last_updated` advanced by the column's `onupdate=db.func.now()`
(models.py 47-49). -/
def commitUpdate (db : List Recommendations) (self : Recommendations) (now : Nat) :
    List Recommendations :=
  db.map (fun r => if r.id = self.id then { self with last_updated := now } else r)

/-- models.py 137-165: `update` re-reads the persisted record and raises
the concurrency `DataValidationError` when the optimistic token differs,
otherwise commits. -/
def update (db : List Recommendations) (self : Recommendations) (now : Nat) :
    Except String (List Recommendations) :=
  match findDb db self.id with
  | Option.some current =>
    if current.last_updated ≠ self.last_updated then
      Except.error "The record was updated by another process."
    else
      Except.ok (commitUpdate db self now)
  | Option.none => Except.ok (commitUpdate db self now)

/-- Bool-valued substring test, used to model Python's `in` on strings. -/
def containsSub (s pat : String) : Bool :=
  (List.range (s.length + 1)).any (fun i => pat.toList.isPrefixOf (s.toList.drop i))

/-- routes.py 267-274: the HTTP status chosen for a
`DataValidationError` raised during update: 409 when the message speaks
of another process, else 400. -/
def statusForUpdateError (e : String) : Nat :=
  if containsSub e "updated by another process" then 409 else 400

/-- The update commit-or-rollback boundary: on success the new database
state, on error the rolled-back (unchanged) state together with the
HTTP status of routes.py 267-274. -/
def update_route_result (db : List Recommendations) (self : Recommendations) (now : Nat) :
    List Recommendations × Option Nat :=
  match update db self now with
  | Except.ok db2 => (db2, Option.none)
  | Except.error e => (db, Option.some (statusForUpdateError e))

/-- routes.py 197-228 with models.py 167-187: `delete_recommendations`
removes the row when present and returns 204 either way. -/
def delete_route (db : List Recommendations) (i : Nat) : List Recommendations × Nat :=
  match findDb db i with
  | Option.some _ => (db.filter (fun r => r.id != i), 204)
  | Option.none => (db, 204)

/-- Digit-string accumulator for the model of Python `int(str)`. -/
def digitsToNatAux : List Char → Nat → Option Nat
  | [], acc => Option.some acc
  | c :: cs, acc =>
    if c.isDigit then digitsToNatAux cs (acc * 10 + (c.toNat - 48))
    else Option.none

/-- A non-empty all-digit character list as a number. -/
def digitsToNat : List Char → Option Nat
  | [] => Option.none
  | c :: cs => digitsToNatAux (c :: cs) 0

/-- Python `int(s)` on a string argument: an optional minus sign then
digits; anything else raises `ValueError` (modelled as `Option.none`). -/
def pyParseInt (s : String) : Option Int :=
  match s.toList with
  | [] => Option.none
  | c :: cs =>
    if c = Char.ofNat 45 then (digitsToNat cs).map (fun n => -(n : Int))
    else (digitsToNat (c :: cs)).map (fun n => (n : Int))

/-- `request.args.get(k)`: the first value bound to a query key. -/
def argsGet (args : List (String × String)) (k : String) : Option String :=
  (args.find? (fun p => p.1 == k)).map (fun p => p.2)

/-- Python `k in request.args`. -/
def hasKey (args : List (String × String)) (k : String) : Bool :=
  (argsGet args k).isSome

/-- routes.py 76-82: `parse_int_param` converts a query value with
`int(...)` and turns `ValueError`/`TypeError` into a `BadRequest` whose
message is the fixed string `Invalid data type: must be an integer`
(the offending field name only goes to the log). -/
def parse_int_param (args : List (String × String)) (param_name : String) :
    Except String Int :=
  match argsGet args param_name with
  | Option.some s =>
    match pyParseInt s with
    | Option.some n => Except.ok n
    | Option.none => Except.error "Invalid data type: must be an integer"
  | Option.none => Except.error "Invalid data type: must be an integer"

/-- routes.py 85-90: `validate_enum_param`. -/
def validate_enum_param (param_name value : String) (valid_options : List String) :
    Except String String :=
  if value ∈ valid_options then Except.ok value
  else Except.error ("Invalid " ++ param_name ++ ": must be one of "
    ++ String.intercalate ", " valid_options)

/-- routes.py 93-120: `filters_from_args` builds the filter dictionary
from the query string, key by key in source order. -/
def filters_from_args (args : List (String × String)) : Except String Filters := do
  let mut f : Filters := {}
  if hasKey args "product_id" then
    f := { f with product_id := Option.some (← parse_int_param args "product_id") }
  if hasKey args "recommended_id" then
    f := { f with recommended_id := Option.some (← parse_int_param args "recommended_id") }
  if hasKey args "page" then
    f := { f with page := Option.some (← parse_int_param args "page") }
  if hasKey args "limit" then
    f := { f with limit := Option.some (← parse_int_param args "limit") }
  if hasKey args "recommendation_type" then
    f := { f with recommendation_type := Option.some (← validate_enum_param
      "recommendation_type" ((argsGet args "recommendation_type").getD "")
      ["cross-sell", "up-sell", "accessory"]) }
  if hasKey args "status" then
    f := { f with status := Option.some (← validate_enum_param
      "status" ((argsGet args "status").getD "")
      ["active", "expired", "draft"]) }
  if hasKey args "sort_by" then
    f := { f with sort_by := Option.some ((argsGet args "sort_by").getD "") }
  if hasKey args "order" then
    f := { f with order := Option.some ((argsGet args "order").getD "") }
  return f

/-- One equality-filter key together with its value, for stating
algebraic laws of `_apply_filters`. -/
inductive EqFilter where
  | product_id (v : Int)
  | recommended_id (v : Int)
  | recommendation_type (v : String)
  | status (v : String)
deriving DecidableEq

/-- The filter dictionary holding exactly one equality key. -/
def singleFilter : EqFilter → Filters
  | .product_id v => { product_id := Option.some v }
  | .recommended_id v => { recommended_id := Option.some v }
  | .recommendation_type v => { recommendation_type := Option.some v }
  | .status v => { status := Option.some v }

/-- Adding one equality key to a filter dictionary. -/
def addFilter : EqFilter → Filters → Filters
  | .product_id v, f => { f with product_id := Option.some v }
  | .recommended_id v, f => { f with recommended_id := Option.some v }
  | .recommendation_type v, f => { f with recommendation_type := Option.some v }
  | .status v, f => { f with status := Option.some v }

/-- Which dictionary key an `EqFilter` occupies. -/
def keyIdx : EqFilter → Nat
  | .product_id _ => 0
  | .recommended_id _ => 1
  | .recommendation_type _ => 2
  | .status _ => 3

/-- The row predicate of one equality filter. -/
def epred : EqFilter → Recommendations → Bool
  | .product_id v, r => r.product_id == v
  | .recommended_id v, r => r.recommended_id == v
  | .recommendation_type v, r => r.recommendation_type == v
  | .status v, r => r.status == v

/-- A simple stored row used in concrete instantiations. -/
def mkRec (i : Nat) : Recommendations :=
  { id := i
    product_id := 1
    recommended_id := 2
    recommendation_type := "cross-sell"
    status := "active"
    created_at := i
    last_updated := i
    like := 0
    dislike := 0 }

/-- Eleven stored rows: one more than the default page size. -/
def db11 : List Recommendations := (List.range 11).map mkRec

/-- A payload whose only invalid field is `status`, the last one
assigned by `deserialize`. -/
def payloadBadStatus : Payload :=
  [("product_id", PyVal.int 5), ("recommended_id", PyVal.int 6),
   ("recommendation_type", PyVal.str "cross-sell"), ("status", PyVal.str "bogus")]

/-- A payload whose `product_id`, the first field assigned, is invalid. -/
def payloadBadProduct : Payload :=
  [("product_id", PyVal.str "x"), ("recommended_id", PyVal.int 6),
   ("recommendation_type", PyVal.str "cross-sell"), ("status", PyVal.str "active")]

/-- The entity state `deserialize` leaves behind when `payloadBadStatus`
fails on its last field. -/
def partialState : RecFields :=
  { product_id := Option.some 5
    recommended_id := Option.some 6
    recommendation_type := Option.some "cross-sell"
    status := Option.none }

/-! Helper lemmas shared by the claim theorems. -/

theorem findDb_commitUpdate (db : List Recommendations) (self : Recommendations)
    (now : Nat) (h : (findDb db self.id).isSome = true) :
    findDb (commitUpdate db self now) self.id
      = Option.some { self with last_updated := now } := by
  induction db with
  | nil => simp [findDb] at h
  | cons r rest ih =>
    by_cases hid : r.id = self.id
    · simp [findDb, commitUpdate, List.find?_cons, hid]
    · have h2 : (findDb rest self.id).isSome = true := by
        simpa [findDb, List.find?_cons, hid] using h
      have := ih h2
      simpa [findDb, commitUpdate, List.find?_cons, hid] using this

theorem findDb_erased (db : List Recommendations) (i : Nat) :
    findDb (db.filter (fun r => r.id != i)) i = Option.none := by
  induction db with
  | nil => rfl
  | cons r rest ih =>
    by_cases hid : r.id = i
    · simpa [List.filter_cons, hid] using ih
    · simpa [findDb, List.filter_cons, List.find?_cons, hid] using ih

theorem filter_swap {α : Type} (p q : α → Bool) (l : List α) :
    (l.filter p).filter q = (l.filter q).filter p := by
  simp only [List.filter_filter]
  exact List.filter_congr (fun a _ => Bool.and_comm _ _)

theorem sortLE_created_desc (a b : Recommendations) :
    sortLE "created_at" "desc" a b ↔ b.created_at ≤ a.created_at := by
  simp [sortLE, sortKey]

theorem apply_filters_single (e : EqFilter) (db : List Recommendations) :
    apply_filters (singleFilter e) db = db.filter (epred e) := by
  cases e <;> rfl

theorem join_chunks {α : Type} (k : Nat) (l : List α) (h : l.length ≤ 10 * k) :
    ((List.range k).map (fun i => (l.drop (i * 10)).take 10)).flatten = l := by
  induction k generalizing l with
  | zero =>
    have hl : l = [] := by
      cases l with
      | nil => rfl
      | cons a t => simp at h
    simp [hl]
  | succ k ih =>
    rw [List.range_succ_eq_map]
    simp only [List.map_cons, List.map_map, List.flatten_cons, Function.comp]
    have hdrop : ∀ i : Nat, l.drop ((i + 1) * 10) = (l.drop 10).drop (i * 10) := by
      intro i
      rw [List.drop_drop]
      congr 1
      ring
    have hmap : (List.range k).map ((fun i => (l.drop (i * 10)).take 10) ∘ Nat.succ)
        = (List.range k).map (fun i => ((l.drop 10).drop (i * 10)).take 10) := by
      apply List.map_congr_left
      intro i _
      show (l.drop ((i + 1) * 10)).take 10 = ((l.drop 10).drop (i * 10)).take 10
      rw [hdrop i]
    rw [hmap, ih (l.drop 10) (by simp; omega)]
    simpa using List.take_append_drop 10 l

/-! Claim theorems. -/

/-- C1: when the persisted record for the updated entity's id carries a
different optimistic token, `update` fails with the concurrency
`DataValidationError` (surfaced as 409 by the route) and the rolled-back
store is unchanged; with an equal token it commits the in-memory field
values and advances `last_updated` to the write time. -/
theorem C1_update_guard
    (db : List Recommendations) (self cur : Recommendations) (now : Nat)
    (hfind : findDb db self.id = Option.some cur) :
    (cur.last_updated ≠ self.last_updated →
      update db self now = Except.error "The record was updated by another process." ∧
      update_route_result db self now = (db, Option.some 409)) ∧
    (cur.last_updated = self.last_updated →
      update db self now = Except.ok (commitUpdate db self now) ∧
      findDb (commitUpdate db self now) self.id
        = Option.some { self with last_updated := now }) := by
  constructor
  · intro hne
    have h1 : update db self now
        = Except.error "The record was updated by another process." := by
      simp [update, hfind, hne]
    have h409 : statusForUpdateError "The record was updated by another process." = 409 := by
      decide
    exact ⟨h1, by simp [update_route_result, h1, h409]⟩
  · intro heq
    have h1 : update db self now = Except.ok (commitUpdate db self now) := by
      simp [update, hfind, heq]
    exact ⟨h1, findDb_commitUpdate db self now (by simp [hfind])⟩

/-- An in-memory copy of the stored row holding a stale token. -/
def selfStale : Recommendations := { mkRec 1 with last_updated := 5 }

/-- An in-memory copy of the stored row holding the current token and
changed field values. -/
def selfFresh : Recommendations := { mkRec 1 with product_id := 42 }

/-- Witness for C1 at a one-row store: the stale token conflicts with
status 409 and no store change; the matching token commits. -/
theorem C1_update_guard_witness :
    (update [mkRec 1] selfStale 7
        = Except.error "The record was updated by another process." ∧
      update_route_result [mkRec 1] selfStale 7 = ([mkRec 1], Option.some 409)) ∧
    (update [mkRec 1] selfFresh 7 = Except.ok (commitUpdate [mkRec 1] selfFresh 7) ∧
      findDb (commitUpdate [mkRec 1] selfFresh 7) selfFresh.id
        = Option.some { selfFresh with last_updated := 7 }) := by
  constructor
  · exact (C1_update_guard [mkRec 1] selfStale (mkRec 1) 7 (by rfl)).1 (by decide)
  · exact (C1_update_guard [mkRec 1] selfFresh (mkRec 1) 7 (by rfl)).2 (by decide)

/-- C4: when the persisted record for the id is absent at guard time,
no conflict is raised and `update` proceeds to commit. -/
theorem C4_missing_current_commits
    (db : List Recommendations) (self : Recommendations) (now : Nat)
    (hfind : findDb db self.id = Option.none) :
    update db self now = Except.ok (commitUpdate db self now) ∧
    update_route_result db self now = (commitUpdate db self now, Option.none) := by
  have h1 : update db self now = Except.ok (commitUpdate db self now) := by
    simp [update, hfind]
  exact ⟨h1, by simp [update_route_result, h1]⟩

/-- Witness for C4 at the empty store. -/
theorem C4_missing_current_commits_witness :
    update [] (mkRec 3) 9 = Except.ok (commitUpdate [] (mkRec 3) 9) ∧
    update_route_result [] (mkRec 3) 9 = (commitUpdate [] (mkRec 3) 9, Option.none) :=
  C4_missing_current_commits [] (mkRec 3) 9 (by rfl)

/-- C9: delete reports 204 for every id, is a no-op on an absent id,
removes a present id, and a second delete of the same id behaves exactly
like deleting a never-existing id. -/
theorem C9_delete_idempotent (db : List Recommendations) (i : Nat) :
    (delete_route db i).2 = 204 ∧
    (findDb db i = Option.none → delete_route db i = (db, 204)) ∧
    findDb (delete_route db i).1 i = Option.none ∧
    delete_route (delete_route db i).1 i = ((delete_route db i).1, 204) := by
  have habs : ∀ db2 : List Recommendations,
      findDb db2 i = Option.none → delete_route db2 i = (db2, 204) := by
    intro db2 h
    simp [delete_route, h]
  have hremoved : findDb (delete_route db i).1 i = Option.none := by
    cases hf : findDb db i with
    | some r => simpa [delete_route, hf] using findDb_erased db i
    | none => simpa [delete_route, hf] using hf
  refine ⟨?_, habs db, hremoved, habs _ hremoved⟩
  cases hf : findDb db i <;> simp [delete_route, hf]

/-- Witness for C9: an absent id is a 204 no-op, and a present id is
gone after its delete. -/
theorem C9_delete_idempotent_witness :
    delete_route [] 3 = ([], 204) ∧
    findDb (delete_route [mkRec 0] 0).1 0 = Option.none :=
  ⟨(C9_delete_idempotent [] 3).2.1 (by rfl),
   (C9_delete_idempotent [mkRec 0] 0).2.2.1⟩

/-- The fields produced by deserializing the boolean-carrying payload. -/
def boolResult : RecFields :=
  { product_id := Option.some 1
    recommended_id := Option.some 2
    recommendation_type := Option.some "cross-sell"
    status := Option.some "active" }

/-- C10: the setters accept Python `True` (a `bool`, hence an `int`)
as a positive integer, so a create payload with `product_id: true`
deserializes with the value stored as the integer 1. -/
theorem C10_bool_accepted_as_int :
    product_id_setter (PyVal.bool true) = Except.ok 1 ∧
    recommended_id_setter (PyVal.bool true) = Except.ok 1 ∧
    deserialize rec0
      [("product_id", PyVal.bool true), ("recommended_id", PyVal.int 2),
       ("recommendation_type", PyVal.str "cross-sell"), ("status", PyVal.str "active")]
      = Except.ok boolResult :=
  ⟨rfl, rfl, rfl⟩

/-- C2 counterexample: a payload whose only invalid field is `status`
fails, but `deserialize` has already assigned `product_id`,
`recommended_id` and `recommendation_type`, so the failed
deserialization does leave partial state. -/
theorem C2_counterexample :
    deserialize rec0 payloadBadStatus
      = Except.error ("Invalid status: must be one of [active, expired, draft]",
          partialState) ∧
    partialState ≠ rec0 :=
  ⟨rfl, by decide⟩

/-- C2 amended: a payload with any single invalid field (missing key,
non-integer or non-positive id, enum value outside its set) makes
`deserialize` fail with a `DataValidationError`; the entity is
guaranteed unmodified only when the offending field is `product_id`,
the first one assigned — a later offending field leaves the earlier
assignments in place. -/
theorem C2_single_invalid_field_fails
    (s : RecFields) (d : Payload)
    (hbad : fieldOkInt d "product_id" product_id_setter = false ∨
            fieldOkInt d "recommended_id" recommended_id_setter = false ∨
            fieldOkStr d "recommendation_type" recommendation_type_setter = false ∨
            fieldOkStr d "status" status_setter = false) :
    (∃ e s2, deserialize s d = Except.error (e, s2)) ∧
    (fieldOkInt d "product_id" product_id_setter = false →
      ∃ e, deserialize s d = Except.error (e, s)) := by
  constructor
  · cases h1 : dictGet d "product_id" with
    | error e => exact ⟨e, s, by simp [deserialize, h1]⟩
    | ok v =>
      cases h2 : product_id_setter v with
      | error e => exact ⟨e, s, by simp [deserialize, h1, h2]⟩
      | ok pid =>
        cases h3 : dictGet d "recommended_id" with
        | error e =>
          exact ⟨e, { s with product_id := Option.some pid },
            by simp [deserialize, h1, h2, h3]⟩
        | ok v2 =>
          cases h4 : recommended_id_setter v2 with
          | error e =>
            exact ⟨e, { s with product_id := Option.some pid },
              by simp [deserialize, h1, h2, h3, h4]⟩
          | ok rid =>
            cases h5 : dictGet d "recommendation_type" with
            | error e =>
              exact ⟨e, { s with product_id := Option.some pid, recommended_id := Option.some rid }, by simp [deserialize, h1, h2, h3, h4, h5]⟩
            | ok v3 =>
              cases h6 : recommendation_type_setter v3 with
              | error e =>
                exact ⟨e, { s with product_id := Option.some pid, recommended_id := Option.some rid }, by simp [deserialize, h1, h2, h3, h4, h5, h6]⟩
              | ok ty =>
                cases h7 : dictGet d "status" with
                | error e =>
                  exact ⟨e, { s with product_id := Option.some pid, recommended_id := Option.some rid, recommendation_type := Option.some ty }, by simp [deserialize, h1, h2, h3, h4, h5, h6, h7]⟩
                | ok v4 =>
                  cases h8 : status_setter v4 with
                  | error e =>
                    exact ⟨e, { s with product_id := Option.some pid, recommended_id := Option.some rid, recommendation_type := Option.some ty }, by simp [deserialize, h1, h2, h3, h4, h5, h6, h7, h8]⟩
                  | ok st =>
                    exfalso
                    rcases hbad with hb | hb | hb | hb <;>
                      simp [fieldOkInt, fieldOkStr, h1, h2, h3, h4, h5, h6, h7, h8] at hb
  · intro hp
    cases h1 : dictGet d "product_id" with
    | error e => exact ⟨e, by simp [deserialize, h1]⟩
    | ok v =>
      cases h2 : product_id_setter v with
      | error e => exact ⟨e, by simp [deserialize, h1, h2]⟩
      | ok pid => simp [fieldOkInt, h1, h2] at hp

/-- Witness for the amended C2: a bad first field fails and leaves the
fresh entity unmodified. -/
theorem C2_single_invalid_field_fails_witness :
    ∃ e, deserialize rec0 payloadBadProduct = Except.error (e, rec0) :=
  (C2_single_invalid_field_fails rec0 payloadBadProduct (Or.inl (by rfl))).2 (by rfl)

/-- C6: the list route rejects `?product_id=abc` with a `BadRequest`,
but its message is the fixed string `Invalid data type: must be an
integer`, which does not name the offending field as the spec (and
test_routes.py 300-312) require. -/
theorem C6_query_error_message_unnamed :
    filters_from_args [("product_id", "abc")]
      = Except.error "Invalid data type: must be an integer" ∧
    containsSub "Invalid data type: must be an integer" "Invalid product_id" = false ∧
    containsSub "Invalid data type: must be an integer" "must be an integer" = true :=
  ⟨by rfl, by decide, by decide⟩

/-- C3 counterexample: with eleven stored rows, the empty filter map
does not return every stored row — default pagination truncates the
result to ten. -/
theorem C3_counterexample :
    ¬ (find_by_filters emptyFilters db11).Perm db11 := by
  intro h
  have hlen := h.length_eq
  rw [show (find_by_filters emptyFilters db11).length = 10 from by rfl,
      show db11.length = 11 from by rfl] at hlen
  exact absurd hlen (by decide)

/-- C3 amended: the empty filter map returns the first ten rows (the
default `page=1`, `limit=10` pagination) of the descending-by-created_at
ordering; it returns every stored row exactly when at most ten rows are
stored. -/
theorem C3_empty_filters_defaults (db : List Recommendations) :
    find_by_filters emptyFilters db
      = (List.insertionSort (sortLE "created_at" "desc") db).take 10 ∧
    (List.insertionSort (sortLE "created_at" "desc") db).Perm db ∧
    List.Pairwise (fun a b => b.created_at ≤ a.created_at)
      (find_by_filters emptyFilters db) ∧
    (db.length ≤ 10 → (find_by_filters emptyFilters db).Perm db) := by
  have h1 : find_by_filters emptyFilters db
      = (List.insertionSort (sortLE "created_at" "desc") db).take 10 := rfl
  have hperm := List.perm_insertionSort (sortLE "created_at" "desc") db
  have hsorted := List.sorted_insertionSort (sortLE "created_at" "desc") db
  refine ⟨h1, hperm, ?_, ?_⟩
  · rw [h1]
    have hp : List.Pairwise (sortLE "created_at" "desc")
        ((List.insertionSort (sortLE "created_at" "desc") db).take 10) :=
      List.Pairwise.sublist (List.take_sublist _ _) hsorted
    exact hp.imp (fun hab => (sortLE_created_desc _ _).mp hab)
  · intro hle
    rw [h1, List.take_of_length_le]
    · exact hperm
    · rw [hperm.length_eq]
      exact hle

/-- Witness for the amended C3: a single-row store is returned whole. -/
theorem C3_empty_filters_defaults_witness :
    (find_by_filters emptyFilters [mkRec 0]).Perm [mkRec 0] :=
  (C3_empty_filters_defaults [mkRec 0]).2.2.2 (by decide)

/-- The filter dictionary carrying only a page number. -/
def pageOnly (p : Int) : Filters := { page := Option.some p }

/-- The concatenation of pages 1 through the number of ten-row pages
needed for the stored rows. -/
def pagesJoin (db : List Recommendations) : List Recommendations :=
  ((List.range ((db.length + 9) / 10)).map
    (fun i : Nat => find_by_filters (pageOnly (((i + 1 : Nat) : Int))) db)).flatten

theorem find_by_filters_pageOnly (i : Nat) (db : List Recommendations) :
    find_by_filters (pageOnly (((i + 1 : Nat) : Int))) db
      = ((List.insertionSort (sortLE "created_at" "desc") db).drop (i * 10)).take 10 := by
  have h0 : find_by_filters (pageOnly (((i + 1 : Nat) : Int))) db
      = ((List.insertionSort (sortLE "created_at" "desc") db).drop
          ((((((i + 1 : Nat) : Int)) - 1) * 10).toNat)).take ((10 : Int)).toNat := rfl
  have htn : (((((i + 1 : Nat) : Int)) - 1) * 10).toNat = i * 10 := by omega
  rw [h0, htn]
  rfl

/-- C5: pagination takes `limit` rows at offset `(page-1)*limit` of the
filtered, sorted sequence, and for the default limit of 10 the pages
1..⌈N/10⌉ concatenate to exactly the full default-sorted stored set, a
permutation of the store (no duplicates, no omissions). -/
theorem C5_pagination_exhaustive :
    (∀ (db : List Recommendations) (f : Filters) (p L : Int),
      1 ≤ p → 0 ≤ L → f.page = Option.some p → f.limit = Option.some L →
      find_by_filters f db
        = ((filtered_sorted f db).drop ((p - 1) * L).toNat).take L.toNat ∧
      (find_by_filters f db).length ≤ L.toNat) ∧
    (∀ db : List Recommendations,
      pagesJoin db = List.insertionSort (sortLE "created_at" "desc") db ∧
      (pagesJoin db).Perm db) := by
  constructor
  · intro db f p L hp hL hpage hlimit
    have h1 : find_by_filters f db
        = ((filtered_sorted f db).drop ((p - 1) * L).toNat).take L.toNat := by
      simp [find_by_filters, apply_pagination, hpage, hlimit]
    refine ⟨h1, ?_⟩
    rw [h1]
    exact List.length_take_le _ _
  · intro db
    have hlen : (List.insertionSort (sortLE "created_at" "desc") db).length = db.length :=
      (List.perm_insertionSort _ db).length_eq
    have hmap : (List.range ((db.length + 9) / 10)).map
          (fun i : Nat => find_by_filters (pageOnly (((i + 1 : Nat) : Int))) db)
        = (List.range ((db.length + 9) / 10)).map
          (fun i => ((List.insertionSort (sortLE "created_at" "desc") db).drop (i * 10)).take 10) := by
      apply List.map_congr_left
      intro i _
      exact find_by_filters_pageOnly i db
    have h2 : pagesJoin db = List.insertionSort (sortLE "created_at" "desc") db := by
      unfold pagesJoin
      rw [hmap]
      exact join_chunks _ _ (by rw [hlen]; omega)
    exact ⟨h2, h2 ▸ List.perm_insertionSort _ db⟩

/-- A filter dictionary asking for page 2 with limit 3. -/
def fpl : Filters := { page := Option.some 2, limit := Option.some 3 }

/-- Witness for C5 at eleven stored rows and at a one-row store. -/
theorem C5_pagination_exhaustive_witness :
    (find_by_filters fpl db11
        = ((filtered_sorted fpl db11).drop (((2 : Int) - 1) * 3).toNat).take ((3 : Int)).toNat ∧
      (find_by_filters fpl db11).length ≤ ((3 : Int)).toNat) ∧
    pagesJoin [mkRec 0] = List.insertionSort (sortLE "created_at" "desc") [mkRec 0] :=
  ⟨C5_pagination_exhaustive.1 db11 fpl 2 3 (by decide) (by decide) rfl rfl,
   (C5_pagination_exhaustive.2 [mkRec 0]).1⟩

/-- C7: two equality filters on distinct keys commute — either
application order gives the same rows as the combined dictionary — and
the combined dictionary keeps exactly the rows satisfying both
predicates (filters are ANDed). -/
theorem C7_equality_filters_commute (e1 e2 : EqFilter) (db : List Recommendations)
    (h : keyIdx e1 ≠ keyIdx e2) :
    apply_filters (singleFilter e2) (apply_filters (singleFilter e1) db)
      = apply_filters (singleFilter e1) (apply_filters (singleFilter e2) db) ∧
    apply_filters (singleFilter e2) (apply_filters (singleFilter e1) db)
      = apply_filters (addFilter e2 (singleFilter e1)) db ∧
    (∀ r, r ∈ apply_filters (addFilter e2 (singleFilter e1)) db ↔
      r ∈ db ∧ epred e1 r = true ∧ epred e2 r = true) := by
  have hseq : apply_filters (singleFilter e2) (apply_filters (singleFilter e1) db)
      = (db.filter (epred e1)).filter (epred e2) := by
    rw [apply_filters_single, apply_filters_single]
  have hseq2 : apply_filters (singleFilter e1) (apply_filters (singleFilter e2) db)
      = (db.filter (epred e2)).filter (epred e1) := by
    rw [apply_filters_single, apply_filters_single]
  have hcomb : apply_filters (addFilter e2 (singleFilter e1)) db
        = (db.filter (epred e1)).filter (epred e2) ∨
      apply_filters (addFilter e2 (singleFilter e1)) db
        = (db.filter (epred e2)).filter (epred e1) := by
    cases e1 <;> cases e2 <;>
      first
      | exact absurd rfl h
      | (left; rfl)
      | (right; rfl)
  refine ⟨?_, ?_, ?_⟩
  · rw [hseq, hseq2, filter_swap]
  · rcases hcomb with hc | hc
    · rw [hseq, hc]
    · rw [hseq, hc, filter_swap]
  · intro r
    have hmem : ∀ (l : List Recommendations) (p q : Recommendations → Bool),
        r ∈ (l.filter p).filter q ↔ r ∈ l ∧ p r = true ∧ q r = true := by
      intro l p q
      simp only [List.mem_filter]
      tauto
    rcases hcomb with hc | hc
    · rw [hc, hmem]
    · rw [hc, hmem]
      tauto

/-- Witness for C7: product_id and status filters commute on the
eleven-row store. -/
theorem C7_equality_filters_commute_witness :
    apply_filters (singleFilter (EqFilter.status "active"))
        (apply_filters (singleFilter (EqFilter.product_id 1)) db11)
      = apply_filters (singleFilter (EqFilter.product_id 1))
        (apply_filters (singleFilter (EqFilter.status "active")) db11) :=
  (C7_equality_filters_commute (EqFilter.product_id 1) (EqFilter.status "active")
    db11 (by decide)).1

/-- C8: a payload whose four business fields are a positive integer id
pair and members of the two enumerations deserializes successfully, and
serializing the resulting entity reproduces those four fields exactly. -/
theorem C8_serialize_roundtrip (d : Payload) (p r : Int) (t st : String) (i c u : Nat)
    (hdp : dictGet d "product_id" = Except.ok (PyVal.int p))
    (hdr : dictGet d "recommended_id" = Except.ok (PyVal.int r))
    (hdt : dictGet d "recommendation_type" = Except.ok (PyVal.str t))
    (hds : dictGet d "status" = Except.ok (PyVal.str st))
    (hp : 0 < p) (hr : 0 < r)
    (ht : t = "cross-sell" ∨ t = "up-sell" ∨ t = "accessory")
    (hs : st = "active" ∨ st = "expired" ∨ st = "draft") :
    ∃ out, deserialize rec0 d = Except.ok out ∧
      dictGet (serialize (toEntity out i c u)) "product_id" = Except.ok (PyVal.int p) ∧
      dictGet (serialize (toEntity out i c u)) "recommended_id" = Except.ok (PyVal.int r) ∧
      dictGet (serialize (toEntity out i c u)) "recommendation_type" = Except.ok (PyVal.str t) ∧
      dictGet (serialize (toEntity out i c u)) "status" = Except.ok (PyVal.str st) := by
  have hps : product_id_setter (PyVal.int p) = Except.ok p := by
    simp [product_id_setter, isinstance_int, pyToInt]
    omega
  have hrs : recommended_id_setter (PyVal.int r) = Except.ok r := by
    simp [recommended_id_setter, isinstance_int, pyToInt]
    omega
  have hts : recommendation_type_setter (PyVal.str t) = Except.ok t := by
    rcases ht with h | h | h <;> simp [recommendation_type_setter, h]
  have hss : status_setter (PyVal.str st) = Except.ok st := by
    rcases hs with h | h | h <;> simp [status_setter, h]
  refine ⟨{ product_id := Option.some p, recommended_id := Option.some r, recommendation_type := Option.some t, status := Option.some st }, ?_, ?_, ?_, ?_, ?_⟩
  · simp [deserialize, hdp, hdr, hdt, hds, hps, hrs, hts, hss, rec0]
  · simp [serialize, toEntity, dictGet, List.find?]
  · simp [serialize, toEntity, dictGet, List.find?]
  · simp [serialize, toEntity, dictGet, List.find?]
  · simp [serialize, toEntity, dictGet, List.find?]

/-- A concrete valid create payload. -/
def payloadW : Payload :=
  [("product_id", PyVal.int 1), ("recommended_id", PyVal.int 100),
   ("recommendation_type", PyVal.str "cross-sell"), ("status", PyVal.str "active")]

/-- Witness for C8 at a concrete payload. -/
theorem C8_serialize_roundtrip_witness :
    ∃ out, deserialize rec0 payloadW = Except.ok out ∧
      dictGet (serialize (toEntity out 7 3 4)) "product_id" = Except.ok (PyVal.int 1) ∧
      dictGet (serialize (toEntity out 7 3 4)) "recommended_id" = Except.ok (PyVal.int 100) ∧
      dictGet (serialize (toEntity out 7 3 4)) "recommendation_type"
        = Except.ok (PyVal.str "cross-sell") ∧
      dictGet (serialize (toEntity out 7 3 4)) "status" = Except.ok (PyVal.str "active") :=
  C8_serialize_roundtrip payloadW 1 100 "cross-sell" "active" 7 3 4
    (by rfl) (by rfl) (by rfl) (by rfl) (by decide) (by decide) (Or.inl rfl) (Or.inl rfl)

end RecService
